import Mathlib

/-!
# Verification of the legal-case-analyzer orchestration layer

Shallow embedding of the analysis orchestrator of `backend/main_enhanced.py`
and of the extraction-step tools of `backend/legal_tools.py` and
`backend/tools/tools.py`.

The Completion Service (the LLM) is an external collaborator: every function
that calls it is parameterized by the response text it would return, and
returns alongside its result the number of Completion Service invocations it
performed.  `json.loads` applied to a response is likewise external library
behaviour: a response carries, as oracle data, the outcome of JSON-decoding
its content (decode error / non-list value / list of items).

String operations mirror the Python ones on ASCII text (`str.lower`,
`str.strip`, `len`, and the `in` substring test).
-/

/-- ASCII lowering of one character, as CPython `str.lower` acts on ASCII
(and exactly as Lean core `Char.toLower`). -/
def charLower (c : Char) : Char :=
  if c.toNat ≥ 65 ∧ c.toNat ≤ 90 then Char.ofNat (c.toNat + 32) else c

/-- Python `s.lower()` on ASCII text. -/
def strLower (s : String) : String := String.mk (s.data.map charLower)

/-- ASCII whitespace, as stripped by Python `str.strip()`. -/
def isPyWS (c : Char) : Bool := c == ' ' || c == '\t' || c == '\n' || c == '\r'

/-- Python `s.strip()` on ASCII text. -/
def strTrim (s : String) : String :=
  String.mk (((s.data.dropWhile isPyWS).reverse.dropWhile isPyWS).reverse)

/-- Python `len(s)`: number of characters. -/
def strLen (s : String) : Nat := s.data.length

/-- `charsLead pat s`: `s` begins with `pat`. -/
def charsLead : List Char → List Char → Bool
  | [], _ => true
  | _ :: _, [] => false
  | a :: as, b :: bs => a == b && charsLead as bs

/-- `charsHave pat s`: `pat` occurs contiguously somewhere in `s`. -/
def charsHave (pat : List Char) : List Char → Bool
  | [] => charsLead pat []
  | b :: bs => charsLead pat (b :: bs) || charsHave pat bs

/-- Python `pat in s` (substring test). -/
def strHas (s pat : String) : Bool := charsHave pat.data s.data

-- ========== legal_tools.py : JurisdictionDetector ==========

namespace JurisdictionDetector

/-- The `civil_law` set literal of `get_jurisdiction_mapping`, in source
order (Python iterates the set in an arbitrary order; the order is only
observable on substring-ambiguous names, which no claim exercises). -/
def civil_law : List String :=
  ["switzerland", "germany", "france", "italy", "spain", "austria", "netherlands", "belgium",
   "luxembourg", "portugal", "greece", "finland", "sweden", "denmark", "norway", "poland",
   "czech republic", "slovakia", "hungary", "romania", "bulgaria", "croatia", "slovenia",
   "estonia", "latvia", "lithuania", "malta", "cyprus", "japan", "south korea", "china",
   "taiwan", "brazil", "argentina", "mexico", "chile", "colombia", "peru", "ecuador",
   "bolivia", "paraguay", "uruguay", "venezuela", "russia", "ukraine", "turkey", "egypt",
   "morocco", "tunisia", "algeria", "iran", "lebanon", "jordan", "qatar", "kuwait", "bahrain",
   "uae", "saudi arabia", "israel", "indonesia", "thailand", "vietnam", "cambodia", "laos",
   "ethiopia", "angola", "mozambique", "kazakhstan", "uzbekistan", "tajikistan", "kyrgyzstan",
   "belarus", "moldova", "georgia", "armenia", "azerbaijan", "albania", "bosnia and herzegovina",
   "north macedonia", "montenegro", "serbia", "kosovo", "iceland", "liechtenstein", "monaco",
   "san marino", "andorra", "european union", "ohada"]

/-- The `common_law` set literal of `get_jurisdiction_mapping`. -/
def common_law : List String :=
  ["united states", "usa", "united kingdom", "england", "scotland", "wales", "northern ireland",
   "ireland", "canada", "australia", "new zealand", "india", "pakistan", "bangladesh",
   "sri lanka", "malaysia", "singapore", "hong kong", "south africa", "nigeria", "ghana",
   "kenya", "uganda", "tanzania", "zambia", "zimbabwe", "botswana", "malawi", "sierra leone",
   "gambia", "jamaica", "barbados", "trinidad and tobago", "bahamas", "belize", "guyana",
   "philippines", "myanmar"]

/-- `get_jurisdiction_mapping`: name → legal-system string. -/
def get_jurisdiction_mapping : List (String × String) :=
  civil_law.map (fun j => (j, "Civil-law jurisdiction")) ++
  common_law.map (fun j => (j, "Common-law jurisdiction"))

/-- `JurisdictionDetector.detect_by_name`. -/
def detect_by_name (jurisdiction_name : String) : Option String :=
  if jurisdiction_name = "" ∨
      strLower jurisdiction_name ∈ ["unknown", "n/a", "none"] then
    none
  else
    match (get_jurisdiction_mapping.find?
        (fun p => p.1 == strLower jurisdiction_name)).map (·.2) with
    | some t => some t
    | none =>
      (get_jurisdiction_mapping.find?
        (fun p => strHas (strLower jurisdiction_name) p.1 ||
          strHas p.1 (strLower jurisdiction_name))).map (·.2)

/-- The three labels allowed by `detect_by_llm`, in source order. -/
def allowed_labels : List String :=
  ["Civil-law jurisdiction", "Common-law jurisdiction", "No court decision"]

/-- `JurisdictionDetector.detect_by_llm`, applied to the Completion Service
response content (the prompt is inert data fed to the opaque service). -/
def detect_by_llm (responseContent : String) : String :=
  match allowed_labels.find?
      (fun o => strHas (strLower (strTrim responseContent)) (strLower o)) with
  | some o => o
  | none => "No court decision"

/-- The dict returned by `JurisdictionDetector.detect`. -/
structure DetectOut where
  jurisdiction_type : String
  precise_jurisdiction : String
  confidence : String
  method : String
  deriving DecidableEq, Repr

/-- `JurisdictionDetector.detect`, paired with the number of Completion
Service calls it makes. -/
def detect (llmResponse : String) (jurisdiction_name text : String) :
    DetectOut × Nat :=
  if text = "" ∨ strLen (strTrim text) < 50 then
    ({ jurisdiction_type := "No court decision"
       precise_jurisdiction :=
         if jurisdiction_name = "" then "Unknown" else jurisdiction_name
       confidence := "high"
       method := "text_length" }, 0)
  else
    match detect_by_name jurisdiction_name with
    | some name_result =>
      ({ jurisdiction_type := name_result
         precise_jurisdiction := jurisdiction_name
         confidence := "high"
         method := "name_mapping" }, 0)
    | none =>
      ({ jurisdiction_type := detect_by_llm llmResponse
         precise_jurisdiction :=
           if jurisdiction_name = "" then "Unknown" else jurisdiction_name
         confidence := "medium"
         method := "llm_analysis" }, 1)

end JurisdictionDetector

-- ========== legal_tools.py : ChoiceOfLawExtractor ==========

namespace ChoiceOfLawExtractor

/-- `ChoiceOfLawExtractor.extract`: picks a jurisdiction-specific prompt,
invokes the Completion Service once, and returns the stripped response.
There is no input-length check in this function. -/
def extract (llmResponse : String) (text jurisdiction_type : String) :
    String × Nat :=
  let _ := text
  let _ := jurisdiction_type
  (strTrim llmResponse, 1)

end ChoiceOfLawExtractor

-- ========== legal_tools.py : ThemeClassifier ==========

/-- Outcome of `json.loads` on a Completion Service response, supplied as
oracle data alongside the raw content (the JSON decoder is an external
library).  Non-string list items are represented by strings outside the
theme vocabulary, which the validation treats identically. -/
inductive ParsedJson
  | notJson
  | nonList
  | jlist (items : List String)
  deriving DecidableEq, Repr

/-- One Completion Service response: raw content plus its JSON decoding. -/
structure LLMResponse where
  content : String
  parsed : ParsedJson
  deriving Repr

namespace ThemeClassifier

/-- `ThemeClassifier.VALID_THEMES`. -/
def VALID_THEMES : List String :=
  ["Choice of Law Clauses",
   "Contractual Obligations",
   "Cross-border Transactions",
   "Party Autonomy",
   "Connecting Factors",
   "Most Significant Relationship",
   "Mandatory Rules",
   "Public Policy",
   "Renvoi",
   "Characterization",
   "Tort Law",
   "Property Rights",
   "Family Law",
   "Succession Law",
   "Corporate Law",
   "Consumer Protection",
   "Employment Law",
   "Intellectual Property",
   "International Arbitration",
   "Recognition and Enforcement"]

/-- The retry loop of `ThemeClassifier.classify`: `attempt` is the index of
the next Completion Service call, `fuel` the remaining attempts out of
`max_attempts = 3`.  Each attempt strict-parses the response as a JSON list
and keeps only vocabulary members; on a JSON decode error it falls back to
substring-matching the raw response against the vocabulary; an attempt that
yields nothing valid retries.  Returns the themes and the number of
Completion Service calls made. -/
def classifyFrom (responses : Nat → LLMResponse) :
    Nat → Nat → List String × Nat
  | _, 0 => (["Cross-border Transactions"], 3)
  | attempt, fuel + 1 =>
    match (responses attempt).parsed with
    | .jlist themes =>
      if (themes.filter (fun t => VALID_THEMES.contains t)).isEmpty then
        classifyFrom responses (attempt + 1) fuel
      else
        (themes.filter (fun t => VALID_THEMES.contains t), attempt + 1)
    | .notJson =>
      if (VALID_THEMES.filter (fun t =>
            strHas (strLower (responses attempt).content) (strLower t))).isEmpty then
        classifyFrom responses (attempt + 1) fuel
      else
        (VALID_THEMES.filter (fun t =>
          strHas (strLower (responses attempt).content) (strLower t)), attempt + 1)
    | .nonList => classifyFrom responses (attempt + 1) fuel

/-- `ThemeClassifier.classify` (the prompt text is inert data for the opaque
Completion Service; the classifier is driven by the successive responses). -/
def classify (responses : Nat → LLMResponse) : List String × Nat :=
  classifyFrom responses 0 3

end ThemeClassifier

-- ========== legal_tools.py : CaseAnalyzer ==========

namespace CaseAnalyzer

/-- `CaseAnalyzer.analyze_relevant_facts`: one Completion Service call,
stripped response returned; no input-length check. -/
def analyze_relevant_facts (llmResponse : String)
    (text col_section jurisdiction_type : String) : String × Nat :=
  let _ := (text, col_section, jurisdiction_type)
  (strTrim llmResponse, 1)

/-- `CaseAnalyzer.identify_pil_provisions`: a single Completion Service
call; the stripped response is JSON-decoded once, a decoded list is returned
as is, and anything else (decode error or non-list) becomes `["NA"]`.  No
retry, no substring heuristic, no input-length check. -/
def identify_pil_provisions (response : LLMResponse)
    (text col_section jurisdiction_type : String) : List String × Nat :=
  let _ := (text, col_section, jurisdiction_type)
  match response.parsed with
  | .jlist provisions => (provisions, 1)
  | .nonList => (["NA"], 1)
  | .notJson => (["NA"], 1)

/-- `CaseAnalyzer.identify_col_issue`: one Completion Service call. -/
def identify_col_issue (llmResponse : String)
    (text col_section : String) (themes : List String)
    (jurisdiction_type : String) : String × Nat :=
  let _ := (text, col_section, themes, jurisdiction_type)
  (strTrim llmResponse, 1)

/-- `CaseAnalyzer.analyze_courts_position`: one Completion Service call. -/
def analyze_courts_position (llmResponse : String)
    (text col_section col_issue : String) (themes : List String)
    (jurisdiction_type : String) : String × Nat :=
  let _ := (text, col_section, col_issue, themes, jurisdiction_type)
  (strTrim llmResponse, 1)

/-- `CaseAnalyzer.extract_obiter_dicta`: for any jurisdiction type other
than the common-law one it returns the not-applicable sentinel without
calling the Completion Service; otherwise one call. -/
def extract_obiter_dicta (llmResponse : String)
    (text col_section jurisdiction_type : String) : String × Nat :=
  let _ := (text, col_section)
  if jurisdiction_type ≠ "Common-law jurisdiction" then
    ("N/A - Not applicable for civil law jurisdiction", 0)
  else
    (strTrim llmResponse, 1)

/-- `CaseAnalyzer.extract_dissenting_opinions`: same gate and sentinel as
`extract_obiter_dicta`. -/
def extract_dissenting_opinions (llmResponse : String)
    (text col_section jurisdiction_type : String) : String × Nat :=
  let _ := (text, col_section)
  if jurisdiction_type ≠ "Common-law jurisdiction" then
    ("N/A - Not applicable for civil law jurisdiction", 0)
  else
    (strTrim llmResponse, 1)

/-- `CaseAnalyzer.generate_abstract`: one Completion Service call. -/
def generate_abstract (llmResponse : String) : String × Nat :=
  (strTrim llmResponse, 1)

end CaseAnalyzer

-- ========== tools/tools.py : length-checked tool variants ==========

namespace ToolsPy

/-- The canned short-input result of `extract_choice_of_law_section`. -/
def colInsufficientMsg : String :=
  "**Choice of Law Extraction: Insufficient Text**\n\nThe provided text is too short to contain meaningful choice of law analysis. Please provide a complete court decision that may contain discussions of applicable law, governing law, or private international law principles."

/-- `tools/tools.py extract_choice_of_law_section`: short input returns the
canned message with no Completion Service call; otherwise one call, whose
stripped content is wrapped (or replaced by a no-PIL-found message when too
short to be substantive). -/
def extract_choice_of_law_section (llmResponse : String) (text : String) :
    String × Nat :=
  if text = "" ∨ strLen (strTrim text) < 50 then
    (colInsufficientMsg, 0)
  else
    let extracted := strTrim llmResponse
    if extracted ≠ "" ∧ strLen extracted > 50 then
      ("**Choice of Law Section Extraction**\n\nThe following sections from the court decision discuss choice of law and private international law principles:\n\n" ++ extracted ++ "\n\n**Note:** This extraction focuses on the reasoning about applicable law, choice of law clauses, and PIL principles as discussed in the original judgment.", 1)
    else
      ("**Choice of Law Extraction: No PIL Discussion Found**\n\nAfter analyzing the provided court decision, no substantial discussion of choice of law, applicable law determination, or private international law principles was identified. The case may primarily involve domestic law issues or may not contain explicit PIL analysis.", 1)

end ToolsPy

-- ========== main_enhanced.py : data model ==========

/-- `JurisdictionType` (string enum). -/
inductive JurisdictionType
  | CIVIL_LAW
  | COMMON_LAW
  | NO_COURT_DECISION
  deriving DecidableEq, Repr

/-- The string value of each `JurisdictionType` member. -/
def JurisdictionType.value : JurisdictionType → String
  | .CIVIL_LAW => "Civil-law jurisdiction"
  | .COMMON_LAW => "Common-law jurisdiction"
  | .NO_COURT_DECISION => "No court decision"

/-- The enum constructor call `JurisdictionType(s)`: `none` models the
`ValueError` it raises on a value outside the enum. -/
def JurisdictionType.ofValue (s : String) : Option JurisdictionType :=
  if s = "Civil-law jurisdiction" then some .CIVIL_LAW
  else if s = "Common-law jurisdiction" then some .COMMON_LAW
  else if s = "No court decision" then some .NO_COURT_DECISION
  else none

/-- `AnalysisStage` (string enum). -/
inductive AnalysisStage
  | JURISDICTION_DETECTION
  | COL_EXTRACTION
  | THEME_CLASSIFICATION
  | FACT_ANALYSIS
  | PIL_PROVISIONS
  | COL_ISSUE
  | COURTS_POSITION
  | OBITER_DICTA
  | DISSENTING_OPINIONS
  | ABSTRACT
  | COMPLETE
  deriving DecidableEq, Repr

/-- The `AnalysisState` dataclass after `__post_init__` (all step-output
lists default to empty; `chat_history` is chat-layer glue and omitted). -/
structure AnalysisState where
  session_id : String
  case_citation : String
  full_text : String
  jurisdiction : Option JurisdictionType := none
  precise_jurisdiction : Option String := none
  col_section : List String := []
  classification : List String := []
  relevant_facts : List String := []
  pil_provisions : List String := []
  col_issue : List String := []
  courts_position : List String := []
  obiter_dicta : List String := []
  dissenting_opinions : List String := []
  abstract : List String := []
  analysis_stage : AnalysisStage := .JURISDICTION_DETECTION
  analysis_done : Bool := false
  deriving DecidableEq, Repr

-- ========== main_enhanced.py : orchestrator ==========

/-- One invocation of `execute_step` reaches the Completion Service through
the tool it dispatches to; the oracle fixes, per step, the value the tool
returns (`Except.error` models the tool raising, which `execute_step`
re-raises after logging). -/
structure StepOracle where
  detectOut : Except String (String × String)
  themesOut : Except String (List String)
  provisionsOut : Except String (List String)
  textOut : String → Except String String

/-- `LegalAnalysisOrchestrator.get_analysis_pipeline`: the seven base steps. -/
def base_pipeline : List String :=
  ["detect_jurisdiction",
   "extract_col_section",
   "classify_themes",
   "analyze_relevant_facts",
   "identify_pil_provisions",
   "identify_col_issue",
   "analyze_courts_position"]

/-- `LegalAnalysisOrchestrator.get_analysis_pipeline`. -/
def get_analysis_pipeline (jurisdiction_type : JurisdictionType) : List String :=
  base_pipeline ++
    (if jurisdiction_type = .COMMON_LAW then
      ["extract_obiter_dicta", "extract_dissenting_opinions"]
    else []) ++
    ["generate_abstract"]

/-- Result of processing one pipeline entry of the COMPREHENSIVE loop of
`analyze_case`: the (possibly) updated state, the tool invocations made
(`execute_step` calls, each reaching the Completion Service), and the
failure — the step name it arose at and the exception message — if the
entry raised. -/
structure StepResult where
  state : AnalysisState
  invoked : List String
  failure : Option (String × String)

/-- One iteration of the COMPREHENSIVE `for step in pipeline` loop of
`analyze_case`: the elif chain gates each step on its output list being
empty (the `jurisdiction` field, for detection; plus the common-law check
for the two common-law-only steps), invokes the tool, and appends the
result.  A raising step leaves the state untouched. -/
def comprehensiveStep (o : StepOracle) (s : AnalysisState) (step : String) :
    StepResult :=
  match step with
  | "detect_jurisdiction" =>
    if s.jurisdiction = none then
      match o.detectOut with
      | .error e => ⟨s, ["detect_jurisdiction"], some ("detect_jurisdiction", e)⟩
      | .ok (jt, pj) =>
        match JurisdictionType.ofValue jt with
        | none =>
          ⟨s, ["detect_jurisdiction"],
           some ("detect_jurisdiction", jt ++ " is not a valid JurisdictionType")⟩
        | some j =>
          ⟨{ s with jurisdiction := some j, precise_jurisdiction := some pj },
           ["detect_jurisdiction"], none⟩
    else ⟨s, [], none⟩
  | "extract_col_section" =>
    if s.col_section = [] then
      match o.textOut "extract_col_section" with
      | .error e => ⟨s, ["extract_col_section"], some ("extract_col_section", e)⟩
      | .ok r =>
        ⟨{ s with col_section := s.col_section ++ [r] }, ["extract_col_section"], none⟩
    else ⟨s, [], none⟩
  | "classify_themes" =>
    if s.classification = [] then
      match o.themesOut with
      | .error e => ⟨s, ["classify_themes"], some ("classify_themes", e)⟩
      | .ok themes =>
        ⟨{ s with classification :=
            s.classification ++ [String.intercalate ", " themes] },
         ["classify_themes"], none⟩
    else ⟨s, [], none⟩
  | "analyze_relevant_facts" =>
    if s.relevant_facts = [] then
      match o.textOut "analyze_relevant_facts" with
      | .error e => ⟨s, ["analyze_relevant_facts"], some ("analyze_relevant_facts", e)⟩
      | .ok r =>
        ⟨{ s with relevant_facts := s.relevant_facts ++ [r] },
         ["analyze_relevant_facts"], none⟩
    else ⟨s, [], none⟩
  | "identify_pil_provisions" =>
    if s.pil_provisions = [] then
      match o.provisionsOut with
      | .error e => ⟨s, ["identify_pil_provisions"], some ("identify_pil_provisions", e)⟩
      | .ok provisions =>
        ⟨{ s with pil_provisions :=
            s.pil_provisions ++ [String.intercalate ", " provisions] },
         ["identify_pil_provisions"], none⟩
    else ⟨s, [], none⟩
  | "identify_col_issue" =>
    if s.col_issue = [] then
      match o.textOut "identify_col_issue" with
      | .error e => ⟨s, ["identify_col_issue"], some ("identify_col_issue", e)⟩
      | .ok r =>
        ⟨{ s with col_issue := s.col_issue ++ [r] }, ["identify_col_issue"], none⟩
    else ⟨s, [], none⟩
  | "analyze_courts_position" =>
    if s.courts_position = [] then
      match o.textOut "analyze_courts_position" with
      | .error e => ⟨s, ["analyze_courts_position"], some ("analyze_courts_position", e)⟩
      | .ok r =>
        ⟨{ s with courts_position := s.courts_position ++ [r] },
         ["analyze_courts_position"], none⟩
    else ⟨s, [], none⟩
  | "extract_obiter_dicta" =>
    if s.obiter_dicta = [] ∧ s.jurisdiction = some .COMMON_LAW then
      match o.textOut "extract_obiter_dicta" with
      | .error e => ⟨s, ["extract_obiter_dicta"], some ("extract_obiter_dicta", e)⟩
      | .ok r =>
        ⟨{ s with obiter_dicta := s.obiter_dicta ++ [r] },
         ["extract_obiter_dicta"], none⟩
    else ⟨s, [], none⟩
  | "extract_dissenting_opinions" =>
    if s.dissenting_opinions = [] ∧ s.jurisdiction = some .COMMON_LAW then
      match o.textOut "extract_dissenting_opinions" with
      | .error e =>
        ⟨s, ["extract_dissenting_opinions"], some ("extract_dissenting_opinions", e)⟩
      | .ok r =>
        ⟨{ s with dissenting_opinions := s.dissenting_opinions ++ [r] },
         ["extract_dissenting_opinions"], none⟩
    else ⟨s, [], none⟩
  | "generate_abstract" =>
    if s.abstract = [] then
      match o.textOut "generate_abstract" with
      | .error e => ⟨s, ["generate_abstract"], some ("generate_abstract", e)⟩
      | .ok r =>
        ⟨{ s with abstract := s.abstract ++ [r], analysis_done := true },
         ["generate_abstract"], none⟩
    else ⟨s, [], none⟩
  | _ => ⟨s, [], none⟩

/-- Walking the pipeline: a raising step halts the loop (the exception
propagates to the endpoint handler), a successful or skipped step continues. -/
def runPipeline (o : StepOracle) : List String → AnalysisState → StepResult
  | [], s => ⟨s, [], none⟩
  | step :: rest, s =>
    match comprehensiveStep o s step with
    | ⟨s1, inv, some f⟩ => ⟨s1, inv, some f⟩
    | ⟨s1, inv, none⟩ =>
      match runPipeline o rest s1 with
      | ⟨s2, inv2, fl⟩ => ⟨s2, inv ++ inv2, fl⟩

/-- The COMPREHENSIVE branch of `analyze_case`: the pipeline is computed
up front from `state.jurisdiction or JurisdictionType.CIVIL_LAW`, then
walked. -/
def analyze_comprehensive (o : StepOracle) (s : AnalysisState) : StepResult :=
  runPipeline o (get_analysis_pipeline (s.jurisdiction.getD .CIVIL_LAW)) s

/-- The `completed_steps` sum of `analyze_case`: indicators of the eight
tracked fields (`obiter_dicta` and `dissenting_opinions` are not counted). -/
def completed_steps (s : AnalysisState) : Nat :=
  (if s.jurisdiction.isSome then 1 else 0) +
  (if s.col_section.isEmpty then 0 else 1) +
  (if s.classification.isEmpty then 0 else 1) +
  (if s.relevant_facts.isEmpty then 0 else 1) +
  (if s.pil_provisions.isEmpty then 0 else 1) +
  (if s.col_issue.isEmpty then 0 else 1) +
  (if s.courts_position.isEmpty then 0 else 1) +
  (if s.abstract.isEmpty then 0 else 1)

/-- `total_steps` of `analyze_case`: the pipeline length for
`state.jurisdiction or JurisdictionType.CIVIL_LAW`. -/
def total_steps (s : AnalysisState) : Nat :=
  (get_analysis_pipeline (s.jurisdiction.getD .CIVIL_LAW)).length

/-- `completion_percentage = (completed_steps / total_steps) * 100`
(exact rational arithmetic; the Python float evaluates to the same value at
every reachable operand pair). -/
def completion_percentage (s : AnalysisState) : ℚ :=
  (completed_steps s : ℚ) / (total_steps s : ℚ) * 100

/-- The fields of the `AnalysisResponse` pydantic model that the claims
observe. -/
structure AnalysisResponseM where
  session_id : String
  stage : AnalysisStage
  jurisdiction : Option JurisdictionType
  completion_percentage : ℚ
  next_stage : Option AnalysisStage
  deriving DecidableEq, Repr

/-- The HTTP-level outcome of the `/analyze` endpoint. -/
inductive ApiResult
  | ok (resp : AnalysisResponseM)
  | httpError (status : Nat) (detail : String)
  deriving DecidableEq, Repr

/-- A fresh `AnalysisState` as created by `analyze_case` for an unknown
session. -/
def initState (session_id case_citation full_text : String) : AnalysisState :=
  { session_id := session_id, case_citation := case_citation,
    full_text := full_text }

/-- The state `analyze_case` operates on: the stored one for a known
session, a fresh one otherwise. -/
def sessionState (stored : Option AnalysisState)
    (session_id case_citation full_text : String) : AnalysisState :=
  match stored with
  | some st => st
  | none => initState session_id case_citation full_text

/-- The `/analyze` endpoint on a COMPREHENSIVE request: fetches or creates
the session state, walks the pipeline, and either reports the completion
percentage or wraps the propagated exception in a 500 `Analysis error`
response.  Returns the state as left in the session store together with the
invocations made and the HTTP outcome. -/
def analyze_case (o : StepOracle) (stored : Option AnalysisState)
    (session_id case_citation full_text : String) :
    AnalysisState × List String × ApiResult :=
  let s := sessionState stored session_id case_citation full_text
  let r := analyze_comprehensive o s
  match r.failure with
  | some (_, e) =>
    (r.state, r.invoked, .httpError 500 ("Analysis error: " ++ e))
  | none =>
    (r.state, r.invoked, .ok
      { session_id := session_id
        stage := r.state.analysis_stage
        jurisdiction := r.state.jurisdiction
        completion_percentage := completion_percentage r.state
        next_stage :=
          if completion_percentage r.state ≥ 100 then none
          else some .COMPLETE })

/-- The stored output a pipeline entry is gated on: the per-step list, and
for detection the jurisdiction field (as the singleton of its enum value). -/
def stepOutput (k : String) (s : AnalysisState) : List String :=
  if k = "detect_jurisdiction" then (s.jurisdiction.map JurisdictionType.value).toList
  else if k = "extract_col_section" then s.col_section
  else if k = "classify_themes" then s.classification
  else if k = "analyze_relevant_facts" then s.relevant_facts
  else if k = "identify_pil_provisions" then s.pil_provisions
  else if k = "identify_col_issue" then s.col_issue
  else if k = "analyze_courts_position" then s.courts_position
  else if k = "extract_obiter_dicta" then s.obiter_dicta
  else if k = "extract_dissenting_opinions" then s.dissenting_opinions
  else if k = "generate_abstract" then s.abstract
  else []

/-- A pipeline entry counts as completed when its stored output is
non-empty. -/
def stepDone (k : String) (s : AnalysisState) : Bool :=
  !(stepOutput k s).isEmpty

-- ========== helper lemmas about the orchestrator ==========

/-- The ten pipeline entry names. -/
def step_names : List String :=
  ["detect_jurisdiction",
   "extract_col_section",
   "classify_themes",
   "analyze_relevant_facts",
   "identify_pil_provisions",
   "identify_col_issue",
   "analyze_courts_position",
   "extract_obiter_dicta",
   "extract_dissenting_opinions",
   "generate_abstract"]

@[simp] lemma stepOutput_detect (s : AnalysisState) :
    stepOutput "detect_jurisdiction" s =
      (s.jurisdiction.map JurisdictionType.value).toList := rfl

@[simp] lemma stepOutput_col (s : AnalysisState) :
    stepOutput "extract_col_section" s = s.col_section := rfl

@[simp] lemma stepOutput_themes (s : AnalysisState) :
    stepOutput "classify_themes" s = s.classification := rfl

@[simp] lemma stepOutput_facts (s : AnalysisState) :
    stepOutput "analyze_relevant_facts" s = s.relevant_facts := rfl

@[simp] lemma stepOutput_provisions (s : AnalysisState) :
    stepOutput "identify_pil_provisions" s = s.pil_provisions := rfl

@[simp] lemma stepOutput_issue (s : AnalysisState) :
    stepOutput "identify_col_issue" s = s.col_issue := rfl

@[simp] lemma stepOutput_position (s : AnalysisState) :
    stepOutput "analyze_courts_position" s = s.courts_position := rfl

@[simp] lemma stepOutput_obiter (s : AnalysisState) :
    stepOutput "extract_obiter_dicta" s = s.obiter_dicta := rfl

@[simp] lemma stepOutput_dissent (s : AnalysisState) :
    stepOutput "extract_dissenting_opinions" s = s.dissenting_opinions := rfl

@[simp] lemma stepOutput_abstract (s : AnalysisState) :
    stepOutput "generate_abstract" s = s.abstract := rfl

lemma stepDone_names {k : String} {s : AnalysisState}
    (h : stepDone k s = true) : k ∈ step_names := by
  by_contra hmem
  simp [step_names] at hmem
  obtain ⟨n1, n2, n3, n4, n5, n6, n7, n8, n9, n10⟩ := hmem
  simp [stepDone, stepOutput, n1, n2, n3, n4, n5, n6, n7, n8, n9, n10] at h


section StepLemmas

variable (o : StepOracle) (s : AnalysisState) (st : String)

lemma cs_jur_some (j : JurisdictionType) (h : s.jurisdiction = some j) :
    (comprehensiveStep o s st).state.jurisdiction = some j := by
  unfold comprehensiveStep
  split <;> (try exact h) <;> split_ifs <;> (repeat' split) <;> simp_all

lemma cs_jur_other (h : st ≠ "detect_jurisdiction") :
    (comprehensiveStep o s st).state.jurisdiction = s.jurisdiction := by
  unfold comprehensiveStep
  split <;> (try rfl) <;> split_ifs <;> (repeat' split) <;> simp_all

lemma cs_col_ne (h : s.col_section ≠ []) :
    (comprehensiveStep o s st).state.col_section = s.col_section := by
  unfold comprehensiveStep
  split <;> (try rfl) <;> split_ifs <;> (repeat' split) <;> simp_all

lemma cs_col_other (h : st ≠ "extract_col_section") :
    (comprehensiveStep o s st).state.col_section = s.col_section := by
  unfold comprehensiveStep
  split <;> (try rfl) <;> split_ifs <;> (repeat' split) <;> simp_all

lemma cs_themes_ne (h : s.classification ≠ []) :
    (comprehensiveStep o s st).state.classification = s.classification := by
  unfold comprehensiveStep
  split <;> (try rfl) <;> split_ifs <;> (repeat' split) <;> simp_all

lemma cs_themes_other (h : st ≠ "classify_themes") :
    (comprehensiveStep o s st).state.classification = s.classification := by
  unfold comprehensiveStep
  split <;> (try rfl) <;> split_ifs <;> (repeat' split) <;> simp_all

lemma cs_facts_ne (h : s.relevant_facts ≠ []) :
    (comprehensiveStep o s st).state.relevant_facts = s.relevant_facts := by
  unfold comprehensiveStep
  split <;> (try rfl) <;> split_ifs <;> (repeat' split) <;> simp_all

lemma cs_facts_other (h : st ≠ "analyze_relevant_facts") :
    (comprehensiveStep o s st).state.relevant_facts = s.relevant_facts := by
  unfold comprehensiveStep
  split <;> (try rfl) <;> split_ifs <;> (repeat' split) <;> simp_all

lemma cs_prov_ne (h : s.pil_provisions ≠ []) :
    (comprehensiveStep o s st).state.pil_provisions = s.pil_provisions := by
  unfold comprehensiveStep
  split <;> (try rfl) <;> split_ifs <;> (repeat' split) <;> simp_all

lemma cs_prov_other (h : st ≠ "identify_pil_provisions") :
    (comprehensiveStep o s st).state.pil_provisions = s.pil_provisions := by
  unfold comprehensiveStep
  split <;> (try rfl) <;> split_ifs <;> (repeat' split) <;> simp_all

lemma cs_issue_ne (h : s.col_issue ≠ []) :
    (comprehensiveStep o s st).state.col_issue = s.col_issue := by
  unfold comprehensiveStep
  split <;> (try rfl) <;> split_ifs <;> (repeat' split) <;> simp_all

lemma cs_issue_other (h : st ≠ "identify_col_issue") :
    (comprehensiveStep o s st).state.col_issue = s.col_issue := by
  unfold comprehensiveStep
  split <;> (try rfl) <;> split_ifs <;> (repeat' split) <;> simp_all

lemma cs_pos_ne (h : s.courts_position ≠ []) :
    (comprehensiveStep o s st).state.courts_position = s.courts_position := by
  unfold comprehensiveStep
  split <;> (try rfl) <;> split_ifs <;> (repeat' split) <;> simp_all

lemma cs_pos_other (h : st ≠ "analyze_courts_position") :
    (comprehensiveStep o s st).state.courts_position = s.courts_position := by
  unfold comprehensiveStep
  split <;> (try rfl) <;> split_ifs <;> (repeat' split) <;> simp_all

lemma cs_obiter_ne (h : s.obiter_dicta ≠ []) :
    (comprehensiveStep o s st).state.obiter_dicta = s.obiter_dicta := by
  unfold comprehensiveStep
  split <;> (try rfl) <;> split_ifs <;> (repeat' split) <;> simp_all

lemma cs_obiter_other (h : st ≠ "extract_obiter_dicta") :
    (comprehensiveStep o s st).state.obiter_dicta = s.obiter_dicta := by
  unfold comprehensiveStep
  split <;> (try rfl) <;> split_ifs <;> (repeat' split) <;> simp_all

lemma cs_dissent_ne (h : s.dissenting_opinions ≠ []) :
    (comprehensiveStep o s st).state.dissenting_opinions = s.dissenting_opinions := by
  unfold comprehensiveStep
  split <;> (try rfl) <;> split_ifs <;> (repeat' split) <;> simp_all

lemma cs_dissent_other (h : st ≠ "extract_dissenting_opinions") :
    (comprehensiveStep o s st).state.dissenting_opinions = s.dissenting_opinions := by
  unfold comprehensiveStep
  split <;> (try rfl) <;> split_ifs <;> (repeat' split) <;> simp_all

lemma cs_abs_ne (h : s.abstract ≠ []) :
    (comprehensiveStep o s st).state.abstract = s.abstract := by
  unfold comprehensiveStep
  split <;> (try rfl) <;> split_ifs <;> (repeat' split) <;> simp_all

lemma cs_abs_other (h : st ≠ "generate_abstract") :
    (comprehensiveStep o s st).state.abstract = s.abstract := by
  unfold comprehensiveStep
  split <;> (try rfl) <;> split_ifs <;> (repeat' split) <;> simp_all

lemma cs_stage : (comprehensiveStep o s st).state.analysis_stage = s.analysis_stage := by
  unfold comprehensiveStep
  split <;> (try rfl) <;> split_ifs <;> (repeat' split) <;> simp_all

lemma cs_done_true (h : s.analysis_done = true) :
    (comprehensiveStep o s st).state.analysis_done = true := by
  unfold comprehensiveStep
  split <;> (try exact h) <;> split_ifs <;> (repeat' split) <;> simp_all

lemma cs_abstract_sets_done (h0 : s.abstract = [])
    (h1 : (comprehensiveStep o s st).state.abstract ≠ []) :
    (comprehensiveStep o s st).state.analysis_done = true := by
  unfold comprehensiveStep at h1 ⊢
  split at h1 <;> (try exact absurd h0 h1) <;>
    (split_ifs at h1 ⊢ <;> (repeat' (split at h1)) <;> simp_all)

lemma cs_invoked :
    (comprehensiveStep o s st).invoked = [] ∨
      ((comprehensiveStep o s st).invoked = [st] ∧ stepDone st s = false) := by
  unfold comprehensiveStep
  split <;> (try (left; rfl)) <;> split_ifs <;> (repeat' split) <;>
    simp_all [stepDone, stepOutput]

lemma cs_failure :
    (comprehensiveStep o s st).failure = none ∨
      ((comprehensiveStep o s st).state = s ∧
       (comprehensiveStep o s st).invoked = [st] ∧
       ∃ e, (comprehensiveStep o s st).failure = some (st, e)) := by
  unfold comprehensiveStep
  split <;> (try (left; rfl)) <;> split_ifs <;> (repeat' split) <;> simp_all

end StepLemmas

/-- A pipeline entry different from `k` leaves `k`'s stored output intact. -/
lemma cs_stepOutput_other (o : StepOracle) (s : AnalysisState) (st k : String)
    (h : k ≠ st) :
    stepOutput k (comprehensiveStep o s st).state = stepOutput k s := by
  by_cases hk : k ∈ step_names
  · simp [step_names] at hk
    rcases hk with rfl | rfl | rfl | rfl | rfl | rfl | rfl | rfl | rfl | rfl <;>
      simp only [stepOutput_detect, stepOutput_col, stepOutput_themes,
        stepOutput_facts, stepOutput_provisions, stepOutput_issue,
        stepOutput_position, stepOutput_obiter, stepOutput_dissent,
        stepOutput_abstract]
    · rw [cs_jur_other o s st (fun hh => h hh.symm)]
    · exact cs_col_other o s st (fun hh => h hh.symm)
    · exact cs_themes_other o s st (fun hh => h hh.symm)
    · exact cs_facts_other o s st (fun hh => h hh.symm)
    · exact cs_prov_other o s st (fun hh => h hh.symm)
    · exact cs_issue_other o s st (fun hh => h hh.symm)
    · exact cs_pos_other o s st (fun hh => h hh.symm)
    · exact cs_obiter_other o s st (fun hh => h hh.symm)
    · exact cs_dissent_other o s st (fun hh => h hh.symm)
    · exact cs_abs_other o s st (fun hh => h hh.symm)
  · simp [step_names] at hk
    obtain ⟨n1, n2, n3, n4, n5, n6, n7, n8, n9, n10⟩ := hk
    simp [stepOutput, n1, n2, n3, n4, n5, n6, n7, n8, n9, n10]

/-- A completed pipeline entry is left untouched and not re-invoked by a
single loop iteration. -/
lemma comprehensiveStep_preserves (o : StepOracle) (s : AnalysisState)
    (st k : String) (h : stepDone k s = true) :
    stepOutput k (comprehensiveStep o s st).state = stepOutput k s ∧
    k ∉ (comprehensiveStep o s st).invoked := by
  constructor
  · have hk := stepDone_names h
    simp [step_names] at hk
    rcases hk with rfl | rfl | rfl | rfl | rfl | rfl | rfl | rfl | rfl | rfl
    · have hj : ∃ j, s.jurisdiction = some j := by
        cases hjur : s.jurisdiction with
        | none => simp [stepDone, hjur] at h
        | some j => exact ⟨j, rfl⟩
      obtain ⟨j, hj⟩ := hj
      simp [cs_jur_some o s st j hj, hj]
    · exact cs_col_ne o s st (by simp [stepDone] at h; simpa using h)
    · exact cs_themes_ne o s st (by simp [stepDone] at h; simpa using h)
    · exact cs_facts_ne o s st (by simp [stepDone] at h; simpa using h)
    · exact cs_prov_ne o s st (by simp [stepDone] at h; simpa using h)
    · exact cs_issue_ne o s st (by simp [stepDone] at h; simpa using h)
    · exact cs_pos_ne o s st (by simp [stepDone] at h; simpa using h)
    · exact cs_obiter_ne o s st (by simp [stepDone] at h; simpa using h)
    · exact cs_dissent_ne o s st (by simp [stepDone] at h; simpa using h)
    · exact cs_abs_ne o s st (by simp [stepDone] at h; simpa using h)
  · rcases cs_invoked o s st with hi | ⟨hi, hgate⟩
    · simp [hi]
    · simp [hi]
      rintro rfl
      rw [h] at hgate
      cases hgate

section PipelineLemmas

variable (o : StepOracle)

/-- Completed entries survive a whole pipeline walk untouched and
uninvoked (idempotent re-entry). -/
lemma runPipeline_preserves (l : List String) :
    ∀ (s : AnalysisState) (k : String), stepDone k s = true →
      stepOutput k (runPipeline o l s).state = stepOutput k s ∧
      k ∉ (runPipeline o l s).invoked := by
  induction l with
  | nil => intro s k h; simp [runPipeline]
  | cons st rest ih =>
    intro s k h
    have hstep := comprehensiveStep_preserves o s st k h
    rcases hcs : comprehensiveStep o s st with ⟨s1, inv, fl⟩
    rw [hcs] at hstep
    have hdone : stepDone k s1 = true := by
      simp only [stepDone] at h ⊢
      rw [hstep.1]
      exact h
    cases fl with
    | some f =>
      simpa [runPipeline, hcs] using hstep
    | none =>
      have ihs := ih s1 k hdone
      rcases hrp : runPipeline o rest s1 with ⟨s2, inv2, fl2⟩
      rw [hrp] at ihs
      simp only [runPipeline, hcs, hrp]
      refine ⟨ihs.1.trans hstep.1, ?_⟩
      simp only [List.mem_append]
      rintro (hmem | hmem)
      · exact hstep.2 hmem
      · exact ihs.2 hmem

/-- Any entry the pipeline walk invokes was incomplete when the walk
started, and appears in the walked pipeline. -/
lemma runPipeline_invoked (l : List String) :
    ∀ (s : AnalysisState) (k : String), k ∈ (runPipeline o l s).invoked →
      k ∈ l ∧ stepDone k s = false := by
  induction l with
  | nil => intro s k hk; simp [runPipeline] at hk
  | cons st rest ih =>
    intro s k hk
    rcases hcs : comprehensiveStep o s st with ⟨s1, inv, fl⟩
    have hinv := cs_invoked o s st
    rw [hcs] at hinv
    dsimp only at hinv
    have hmemInv : k ∈ inv → k ∈ st :: rest ∧ stepDone k s = false := by
      intro hmem
      rcases hinv with h0 | ⟨h1, hgate⟩
      · rw [h0] at hmem; cases hmem
      · rw [h1] at hmem
        have hks : k = st := by simpa using hmem
        subst hks
        exact ⟨List.mem_cons_self _ _, hgate⟩
    cases fl with
    | some f =>
      simp only [runPipeline, hcs] at hk
      exact hmemInv hk
    | none =>
      rcases hrp : runPipeline o rest s1 with ⟨s2, inv2, fl2⟩
      simp only [runPipeline, hcs, hrp] at hk
      rcases List.mem_append.mp hk with hmem | hmem
      · exact hmemInv hmem
      · have h2 := ih s1 k (by rw [hrp]; exact hmem)
        refine ⟨List.mem_cons_of_mem _ h2.1, ?_⟩
        cases hdk : stepDone k s with
        | false => rfl
        | true =>
          have hpres := comprehensiveStep_preserves o s st k hdk
          rw [hcs] at hpres
          dsimp only at hpres
          have hd1 : stepDone k s1 = true := by
            simp only [stepDone] at hdk ⊢
            rw [hpres.1]; exact hdk
          rw [h2.2] at hd1; cases hd1

end PipelineLemmas

section MorePipelineLemmas

variable (o : StepOracle)

lemma runPipeline_stage (l : List String) :
    ∀ s : AnalysisState,
      (runPipeline o l s).state.analysis_stage = s.analysis_stage := by
  induction l with
  | nil => intro s; rfl
  | cons st rest ih =>
    intro s
    rcases hcs : comprehensiveStep o s st with ⟨s1, inv, fl⟩
    have h1 := cs_stage o s st
    rw [hcs] at h1
    cases fl with
    | some f => simp only [runPipeline, hcs]; exact h1
    | none =>
      rcases hrp : runPipeline o rest s1 with ⟨s2, inv2, fl2⟩
      simp only [runPipeline, hcs, hrp]
      have h2 := ih s1
      rw [hrp] at h2
      exact h2.trans h1

lemma runPipeline_jur_some (l : List String) (j : JurisdictionType) :
    ∀ s : AnalysisState, s.jurisdiction = some j →
      (runPipeline o l s).state.jurisdiction = some j := by
  induction l with
  | nil => intro s h; exact h
  | cons st rest ih =>
    intro s h
    rcases hcs : comprehensiveStep o s st with ⟨s1, inv, fl⟩
    have h1 := cs_jur_some o s st j h
    rw [hcs] at h1
    cases fl with
    | some f => simp only [runPipeline, hcs]; exact h1
    | none =>
      rcases hrp : runPipeline o rest s1 with ⟨s2, inv2, fl2⟩
      simp only [runPipeline, hcs, hrp]
      have h2 := ih s1 h1
      rw [hrp] at h2
      exact h2

lemma runPipeline_done_true (l : List String) :
    ∀ s : AnalysisState, s.analysis_done = true →
      (runPipeline o l s).state.analysis_done = true := by
  induction l with
  | nil => intro s h; exact h
  | cons st rest ih =>
    intro s h
    rcases hcs : comprehensiveStep o s st with ⟨s1, inv, fl⟩
    have h1 := cs_done_true o s st h
    rw [hcs] at h1
    cases fl with
    | some f => simp only [runPipeline, hcs]; exact h1
    | none =>
      rcases hrp : runPipeline o rest s1 with ⟨s2, inv2, fl2⟩
      simp only [runPipeline, hcs, hrp]
      have h2 := ih s1 h1
      rw [hrp] at h2
      exact h2

lemma runPipeline_obiter_skip (l : List String)
    (hni : "extract_obiter_dicta" ∉ l) :
    ∀ s : AnalysisState,
      (runPipeline o l s).state.obiter_dicta = s.obiter_dicta := by
  induction l with
  | nil => intro s; rfl
  | cons st rest ih =>
    intro s
    have hst : st ≠ "extract_obiter_dicta" := by
      intro hh; exact hni (hh ▸ List.mem_cons_self _ _)
    have hrest : "extract_obiter_dicta" ∉ rest := fun hh =>
      hni (List.mem_cons_of_mem _ hh)
    rcases hcs : comprehensiveStep o s st with ⟨s1, inv, fl⟩
    have h1 := cs_obiter_other o s st hst
    rw [hcs] at h1
    cases fl with
    | some f => simp only [runPipeline, hcs]; exact h1
    | none =>
      rcases hrp : runPipeline o rest s1 with ⟨s2, inv2, fl2⟩
      simp only [runPipeline, hcs, hrp]
      have h2 := ih hrest s1
      rw [hrp] at h2
      exact h2.trans h1

lemma runPipeline_dissent_skip (l : List String)
    (hni : "extract_dissenting_opinions" ∉ l) :
    ∀ s : AnalysisState,
      (runPipeline o l s).state.dissenting_opinions = s.dissenting_opinions := by
  induction l with
  | nil => intro s; rfl
  | cons st rest ih =>
    intro s
    have hst : st ≠ "extract_dissenting_opinions" := by
      intro hh; exact hni (hh ▸ List.mem_cons_self _ _)
    have hrest : "extract_dissenting_opinions" ∉ rest := fun hh =>
      hni (List.mem_cons_of_mem _ hh)
    rcases hcs : comprehensiveStep o s st with ⟨s1, inv, fl⟩
    have h1 := cs_dissent_other o s st hst
    rw [hcs] at h1
    cases fl with
    | some f => simp only [runPipeline, hcs]; exact h1
    | none =>
      rcases hrp : runPipeline o rest s1 with ⟨s2, inv2, fl2⟩
      simp only [runPipeline, hcs, hrp]
      have h2 := ih hrest s1
      rw [hrp] at h2
      exact h2.trans h1

lemma runPipeline_abstract_done (l : List String) :
    ∀ s : AnalysisState, s.abstract = [] →
      (runPipeline o l s).state.abstract ≠ [] →
      (runPipeline o l s).state.analysis_done = true := by
  induction l with
  | nil => intro s h0 h1; exact absurd h0 h1
  | cons st rest ih =>
    intro s h0 h1
    rcases hcs : comprehensiveStep o s st with ⟨s1, inv, fl⟩
    cases fl with
    | some f =>
      simp only [runPipeline, hcs] at h1 ⊢
      have hfl := cs_failure o s st
      rw [hcs] at hfl
      rcases hfl with hnone | ⟨hstate, _, _, _⟩
      · simp at hnone
      · have hs1 : s1 = s := hstate
        rw [hs1] at h1; exact absurd h0 h1
    | none =>
      rcases hrp : runPipeline o rest s1 with ⟨s2, inv2, fl2⟩
      simp only [runPipeline, hcs, hrp] at h1 ⊢
      by_cases habs : s1.abstract = []
      · have h2 := ih s1 habs (by rw [hrp]; exact h1)
        rw [hrp] at h2
        exact h2
      · have hdone1 : s1.analysis_done = true := by
          have := cs_abstract_sets_done o s st h0 (by rw [hcs]; exact habs)
          rw [hcs] at this
          exact this
        have h2 := runPipeline_done_true o rest s1 hdone1
        rw [hrp] at h2
        exact h2

end MorePipelineLemmas


section FailureLemmas

variable (o : StepOracle)

lemma runPipeline_failure_spec (l : List String) :
    ∀ (s : AnalysisState) (k e : String), l.Nodup →
      (runPipeline o l s).failure = some (k, e) →
      k ∈ l ∧
      stepOutput k (runPipeline o l s).state = stepOutput k s ∧
      (runPipeline o l s).invoked.getLast? = some k := by
  induction l with
  | nil => intro s k e _ hf; simp [runPipeline] at hf
  | cons st rest ih =>
    intro s k e hnd hf
    rcases hcs : comprehensiveStep o s st with ⟨s1, inv, fl⟩
    have hfl := cs_failure o s st
    rw [hcs] at hfl
    cases fl with
    | some f =>
      simp only [runPipeline, hcs] at hf ⊢
      rcases hfl with h0 | ⟨hstate, hinv, e', hfe⟩
      · simp at h0
      · have hf' : f = (k, e) := by simpa using hf
        have hfe' : some f = some (st, e') := hfe
        have hfe2 : f = (st, e') := by simpa using hfe'
        have hks : st = k := by
          rw [hf'] at hfe2
          exact (Prod.mk.injEq k e st e').mp hfe2 |>.1.symm
        have hs1 : s1 = s := hstate
        have hinv' : inv = [st] := hinv
        subst hks
        refine ⟨List.mem_cons_self _ _, ?_, ?_⟩
        · rw [hs1]
        · rw [hinv']; rfl
    | none =>
      rcases hrp : runPipeline o rest s1 with ⟨s2, inv2, fl2⟩
      simp only [runPipeline, hcs, hrp] at hf ⊢
      have hih := ih s1 k e (List.nodup_cons.mp hnd).2 (by rw [hrp]; exact hf)
      rw [hrp] at hih
      have hkrest : k ∈ rest := hih.1
      have hkst : k ≠ st := fun hh => (List.nodup_cons.mp hnd).1 (hh ▸ hkrest)
      refine ⟨List.mem_cons_of_mem _ hkrest, ?_, ?_⟩
      · have := cs_stepOutput_other o s st k hkst
        rw [hcs] at this
        exact hih.2.1.trans this
      · have h2 := hih.2.2
        have hne : inv2 ≠ [] := by
          rintro rfl; simp at h2
        rw [List.getLast?_append_of_ne_nil _ hne]
        exact h2

end FailureLemmas

section RunsLemmas

variable (o : StepOracle)

lemma runPipeline_obiter_runs (l : List String) :
    ∀ s : AnalysisState, "extract_obiter_dicta" ∈ l →
      s.jurisdiction = some .COMMON_LAW → s.obiter_dicta = [] →
      (runPipeline o l s).failure = none →
      "extract_obiter_dicta" ∈ (runPipeline o l s).invoked ∧
      (runPipeline o l s).state.obiter_dicta ≠ [] := by
  induction l with
  | nil => intro s hmem; cases hmem
  | cons st rest ih =>
    intro s hmem hjur hob hfail
    rcases hcs : comprehensiveStep o s st with ⟨s1, inv, fl⟩
    cases fl with
    | some f => simp only [runPipeline, hcs] at hfail; cases hfail
    | none =>
      rcases hrp : runPipeline o rest s1 with ⟨s2, inv2, fl2⟩
      simp only [runPipeline, hcs, hrp] at hfail ⊢
      by_cases hst : st = "extract_obiter_dicta"
      · subst hst
        have hgate : s.obiter_dicta = [] ∧ s.jurisdiction = some .COMMON_LAW :=
          ⟨hob, hjur⟩
        rcases hout : o.textOut "extract_obiter_dicta" with e | r
        · have : comprehensiveStep o s "extract_obiter_dicta" =
              ⟨s, ["extract_obiter_dicta"], some ("extract_obiter_dicta", e)⟩ := by
            simp [comprehensiveStep, hob, hjur, hout]
          rw [this] at hcs
          simp at hcs
        · have hcomp : comprehensiveStep o s "extract_obiter_dicta" =
              ⟨{ s with obiter_dicta := s.obiter_dicta ++ [r] },
               ["extract_obiter_dicta"], none⟩ := by
            simp [comprehensiveStep, hob, hjur, hout]
          rw [hcomp] at hcs
          have hs1 : s1 = { s with obiter_dicta := s.obiter_dicta ++ [r] } :=
            ((StepResult.mk.injEq _ _ _ _ _ _).mp hcs).1.symm
          have hinv : inv = ["extract_obiter_dicta"] :=
            ((StepResult.mk.injEq _ _ _ _ _ _).mp hcs).2.1.symm
          have hdone1 : stepDone "extract_obiter_dicta" s1 = true := by
            simp [stepDone, hs1]
          have hpres := runPipeline_preserves o rest s1 "extract_obiter_dicta" hdone1
          rw [hrp] at hpres
          constructor
          · rw [hinv]; simp
          · have : s2.obiter_dicta = s1.obiter_dicta := by
              have h1 := hpres.1
              simpa [stepOutput] using h1
            rw [this, hs1]
            simp
      · have hmem' : "extract_obiter_dicta" ∈ rest := by
          rcases List.mem_cons.mp hmem with h | h
          · exact absurd h.symm hst
          · exact h
        have hjur1 : s1.jurisdiction = some .COMMON_LAW := by
          have := cs_jur_some o s st _ hjur
          rw [hcs] at this
          exact this
        have hob1 : s1.obiter_dicta = [] := by
          have := cs_obiter_other o s st hst
          rw [hcs] at this
          have h2 : s1.obiter_dicta = s.obiter_dicta := this
          rw [h2]; exact hob
        have hih := ih s1 hmem' hjur1 hob1 (by rw [hrp]; exact hfail)
        rw [hrp] at hih
        exact ⟨List.mem_append.mpr (Or.inr hih.1), hih.2⟩

lemma runPipeline_dissent_runs (l : List String) :
    ∀ s : AnalysisState, "extract_dissenting_opinions" ∈ l →
      s.jurisdiction = some .COMMON_LAW → s.dissenting_opinions = [] →
      (runPipeline o l s).failure = none →
      "extract_dissenting_opinions" ∈ (runPipeline o l s).invoked ∧
      (runPipeline o l s).state.dissenting_opinions ≠ [] := by
  induction l with
  | nil => intro s hmem; cases hmem
  | cons st rest ih =>
    intro s hmem hjur hdis hfail
    rcases hcs : comprehensiveStep o s st with ⟨s1, inv, fl⟩
    cases fl with
    | some f => simp only [runPipeline, hcs] at hfail; cases hfail
    | none =>
      rcases hrp : runPipeline o rest s1 with ⟨s2, inv2, fl2⟩
      simp only [runPipeline, hcs, hrp] at hfail ⊢
      by_cases hst : st = "extract_dissenting_opinions"
      · subst hst
        have hgate : s.dissenting_opinions = [] ∧ s.jurisdiction = some .COMMON_LAW :=
          ⟨hdis, hjur⟩
        rcases hout : o.textOut "extract_dissenting_opinions" with e | r
        · have : comprehensiveStep o s "extract_dissenting_opinions" =
              ⟨s, ["extract_dissenting_opinions"], some ("extract_dissenting_opinions", e)⟩ := by
            simp [comprehensiveStep, hdis, hjur, hout]
          rw [this] at hcs
          simp at hcs
        · have hcomp : comprehensiveStep o s "extract_dissenting_opinions" =
              ⟨{ s with dissenting_opinions := s.dissenting_opinions ++ [r] },
               ["extract_dissenting_opinions"], none⟩ := by
            simp [comprehensiveStep, hdis, hjur, hout]
          rw [hcomp] at hcs
          have hs1 : s1 = { s with dissenting_opinions := s.dissenting_opinions ++ [r] } :=
            ((StepResult.mk.injEq _ _ _ _ _ _).mp hcs).1.symm
          have hinv : inv = ["extract_dissenting_opinions"] :=
            ((StepResult.mk.injEq _ _ _ _ _ _).mp hcs).2.1.symm
          have hdone1 : stepDone "extract_dissenting_opinions" s1 = true := by
            simp [stepDone, hs1]
          have hpres := runPipeline_preserves o rest s1 "extract_dissenting_opinions" hdone1
          rw [hrp] at hpres
          constructor
          · rw [hinv]; simp
          · have : s2.dissenting_opinions = s1.dissenting_opinions := by
              have h1 := hpres.1
              simpa [stepOutput] using h1
            rw [this, hs1]
            simp
      · have hmem' : "extract_dissenting_opinions" ∈ rest := by
          rcases List.mem_cons.mp hmem with h | h
          · exact absurd h.symm hst
          · exact h
        have hjur1 : s1.jurisdiction = some .COMMON_LAW := by
          have := cs_jur_some o s st _ hjur
          rw [hcs] at this
          exact this
        have hdis1 : s1.dissenting_opinions = [] := by
          have := cs_dissent_other o s st hst
          rw [hcs] at this
          have h2 : s1.dissenting_opinions = s.dissenting_opinions := this
          rw [h2]; exact hdis
        have hih := ih s1 hmem' hjur1 hdis1 (by rw [hrp]; exact hfail)
        rw [hrp] at hih
        exact ⟨List.mem_append.mpr (Or.inr hih.1), hih.2⟩

end RunsLemmas

-- ========== concrete fixtures for witnesses and counterexamples ==========

/-- An oracle on which every tool succeeds and jurisdiction detection
reports the common-law family. -/
def commonOkOracle : StepOracle :=
  { detectOut := .ok ("Common-law jurisdiction", "England")
    themesOut := .ok ["Party Autonomy"]
    provisionsOut := .ok ["Art. 187, PILA"]
    textOut := fun _ => .ok "generated analysis text" }

/-- An oracle on which every tool succeeds and jurisdiction detection
reports the civil-law family. -/
def civilOkOracle : StepOracle :=
  { detectOut := .ok ("Civil-law jurisdiction", "Switzerland")
    themesOut := .ok ["Party Autonomy"]
    provisionsOut := .ok ["Art. 187, PILA"]
    textOut := fun _ => .ok "generated analysis text" }

/-- An oracle whose choice-of-law extraction tool raises `boom` while every
other tool succeeds. -/
def colFailOracle : StepOracle :=
  { detectOut := .ok ("Civil-law jurisdiction", "Switzerland")
    themesOut := .ok ["Party Autonomy"]
    provisionsOut := .ok ["NA"]
    textOut := fun st =>
      if st = "extract_col_section" then .error "boom" else .ok "analysis text" }

/-- A session state with the choice-of-law step already completed. -/
def c1state : AnalysisState :=
  { session_id := "s1", case_citation := "cite", full_text := "case text",
    col_section := ["already extracted section"] }

/-- A civil-law session state in which every pipeline step of the civil-law
pipeline has completed. -/
def fullCivilState : AnalysisState :=
  { session_id := "sc", case_citation := "cite", full_text := "case text",
    jurisdiction := some .CIVIL_LAW,
    precise_jurisdiction := some "Switzerland",
    col_section := ["col"], classification := ["Party Autonomy"],
    relevant_facts := ["facts"], pil_provisions := ["Art. 187, PILA"],
    col_issue := ["issue"], courts_position := ["position"],
    abstract := ["abstract"], analysis_done := true }

/-- A common-law session state in which every pipeline step of the
common-law pipeline has completed, the two common-law-only steps included. -/
def fullCommonState : AnalysisState :=
  { session_id := "sk", case_citation := "cite", full_text := "case text",
    jurisdiction := some .COMMON_LAW,
    precise_jurisdiction := some "England",
    col_section := ["col"], classification := ["Party Autonomy"],
    relevant_facts := ["facts"], pil_provisions := ["Art. 187, PILA"],
    col_issue := ["issue"], courts_position := ["position"],
    obiter_dicta := ["obiter"], dissenting_opinions := ["dissent"],
    abstract := ["abstract"], analysis_done := true }

/-- The completion percentage an HTTP outcome reports, when it is a
success. -/
def apiCompletion : ApiResult → Option ℚ
  | .ok r => some r.completion_percentage
  | .httpError _ _ => none

lemma pipeline_nodup (j : JurisdictionType) : (get_analysis_pipeline j).Nodup := by
  cases j <;> decide

-- ========== claim theorems ==========

/-- C1: Idempotent resume — on any state in which step K's output (the
jurisdiction field, for the detection step) is already non-empty, a
COMPREHENSIVE `analyze_case` run leaves K's stored output unchanged, never
invokes K's tool (hence never reaches the Completion Service for K), and
every step it does invoke had an empty output when the run started. -/
theorem C1_idempotent_resume (o : StepOracle) (s : AnalysisState) (k : String)
    (h : stepDone k s = true) :
    stepOutput k (analyze_comprehensive o s).state = stepOutput k s ∧
    k ∉ (analyze_comprehensive o s).invoked ∧
    ∀ j ∈ (analyze_comprehensive o s).invoked, stepDone j s = false := by
  unfold analyze_comprehensive
  refine ⟨(runPipeline_preserves o _ s k h).1,
          (runPipeline_preserves o _ s k h).2, ?_⟩
  intro j hj
  exact (runPipeline_invoked o _ s j hj).2

/-- Witness for C1 at a concrete partially-completed state. -/
theorem C1_witness :
    stepDone "extract_col_section" c1state = true ∧
    (stepOutput "extract_col_section"
        (analyze_comprehensive commonOkOracle c1state).state =
      stepOutput "extract_col_section" c1state ∧
    "extract_col_section" ∉ (analyze_comprehensive commonOkOracle c1state).invoked ∧
    ∀ j ∈ (analyze_comprehensive commonOkOracle c1state).invoked,
      stepDone j c1state = false) :=
  ⟨by decide, C1_idempotent_resume commonOkOracle c1state "extract_col_section" (by decide)⟩

/-- C2 counterexample: a CommonLaw session with every pipeline step
completed (obiter dicta and dissenting opinions included) reports
completion_percentage 80, not 100 — the two common-law-only outputs are
missing from the completed-step count while the denominator counts their
steps. -/
theorem C2_counterexample :
    (∀ k ∈ step_names, stepDone k fullCommonState = true) ∧
    completion_percentage fullCommonState = 80 ∧
    completion_percentage fullCommonState ≠ 100 ∧
    apiCompletion
      (analyze_case commonOkOracle (some fullCommonState) "sk" "cite" "t").2.2 =
      some 80 := by
  have hc : completed_steps fullCommonState = 8 := rfl
  have ht : total_steps fullCommonState = 10 := rfl
  have h80 : completion_percentage fullCommonState = 80 := by
    unfold completion_percentage
    rw [hc, ht]
    norm_num
  refine ⟨by decide, h80, by rw [h80]; norm_num, ?_⟩
  have hr : apiCompletion
      (analyze_case commonOkOracle (some fullCommonState) "sk" "cite" "t").2.2 =
      some (completion_percentage fullCommonState) := rfl
  rw [hr, h80]

/-- C2 (amended): completion percentage is the count of the eight tracked
fields (jurisdiction, col_section, classification, relevant_facts,
pil_provisions, col_issue, courts_position, abstract — the two
common-law-only outputs are not counted) over the pipeline length of the
session's jurisdiction family, times 100; a CivilLaw session with all its
steps completed reports 100, while a fully completed CommonLaw session
reports 80. -/
theorem C2_completion_percentage (s : AnalysisState)
    (h1 : s.col_section ≠ []) (h2 : s.classification ≠ [])
    (h3 : s.relevant_facts ≠ []) (h4 : s.pil_provisions ≠ [])
    (h5 : s.col_issue ≠ []) (h6 : s.courts_position ≠ [])
    (h7 : s.abstract ≠ []) :
    (s.jurisdiction = some .CIVIL_LAW → completion_percentage s = 100) ∧
    (s.jurisdiction = some .COMMON_LAW → completion_percentage s = 80) := by
  constructor <;> intro hj
  · have hc : completed_steps s = 8 := by
      simp [completed_steps, hj, List.isEmpty_iff, h1, h2, h3, h4, h5, h6, h7]
    have ht : total_steps s = 8 := by
      simp only [total_steps, hj]; rfl
    unfold completion_percentage
    rw [hc, ht]
    norm_num
  · have hc : completed_steps s = 8 := by
      simp [completed_steps, hj, List.isEmpty_iff, h1, h2, h3, h4, h5, h6, h7]
    have ht : total_steps s = 10 := by
      simp only [total_steps, hj]; rfl
    unfold completion_percentage
    rw [hc, ht]
    norm_num

/-- Witness for C2 at the two fully completed concrete states. -/
theorem C2_witness :
    completion_percentage fullCivilState = 100 ∧
    completion_percentage fullCommonState = 80 :=
  ⟨(C2_completion_percentage fullCivilState (by decide) (by decide) (by decide)
      (by decide) (by decide) (by decide) (by decide)).1 rfl,
   (C2_completion_percentage fullCommonState (by decide) (by decide) (by decide)
      (by decide) (by decide) (by decide) (by decide)).2 rfl⟩

/-- C9 counterexample: a fresh session run to full completion (abstract
generated, analysis_done set) still has analysis_stage equal to its
initial jurisdiction_detection value — the orchestrator never assigns
analysis_stage, so it never reaches the terminal Complete value. -/
theorem C9_counterexample :
    (analyze_comprehensive civilOkOracle (initState "s9" "cite" "txt")).state.abstract ≠ [] ∧
    (analyze_comprehensive civilOkOracle (initState "s9" "cite" "txt")).state.analysis_done = true ∧
    (analyze_comprehensive civilOkOracle (initState "s9" "cite" "txt")).state.analysis_stage =
      AnalysisStage.JURISDICTION_DETECTION ∧
    (analyze_comprehensive civilOkOracle (initState "s9" "cite" "txt")).state.analysis_stage ≠
      AnalysisStage.COMPLETE := by
  refine ⟨by decide, by decide, by decide, by decide⟩

/-- C9 (amended): `analysis_stage` is constant across every COMPREHENSIVE
orchestrator run — it stays at the value the state was created with and in
particular never becomes Complete through the pipeline; completion of the
terminal generate_abstract step is recorded in `analysis_done` instead. -/
theorem C9_stage_constant (o : StepOracle) (s : AnalysisState) :
    (analyze_comprehensive o s).state.analysis_stage = s.analysis_stage ∧
    (s.abstract = [] → (analyze_comprehensive o s).state.abstract ≠ [] →
      (analyze_comprehensive o s).state.analysis_done = true) := by
  refine ⟨runPipeline_stage o _ s, fun h0 h1 => ?_⟩
  exact runPipeline_abstract_done o _ s h0 h1

/-- Witness for C9 on a concrete completed run. -/
theorem C9_witness :
    (analyze_comprehensive civilOkOracle (initState "s9w" "cite" "txt")).state.analysis_stage =
      AnalysisStage.JURISDICTION_DETECTION ∧
    (analyze_comprehensive civilOkOracle (initState "s9w" "cite" "txt")).state.analysis_done =
      true :=
  ⟨(C9_stage_constant civilOkOracle (initState "s9w" "cite" "txt")).1,
   (C9_stage_constant civilOkOracle (initState "s9w" "cite" "txt")).2 rfl (by decide)⟩

section ClassifyLemmas

variable (responses : Nat → LLMResponse)

lemma classifyFrom_vocab :
    ∀ (fuel attempt : Nat),
      ∀ t ∈ (ThemeClassifier.classifyFrom responses attempt fuel).1,
        t ∈ ThemeClassifier.VALID_THEMES := by
  intro fuel
  induction fuel with
  | zero =>
    intro attempt t ht
    simp only [ThemeClassifier.classifyFrom] at ht
    simp at ht
    simp [ht, ThemeClassifier.VALID_THEMES]
  | succ n ih =>
    intro attempt t ht
    unfold ThemeClassifier.classifyFrom at ht
    split at ht
    · split_ifs at ht
      · exact ih (attempt + 1) t ht
      · have hm := List.mem_filter.mp ht
        simpa using hm.2
    · split_ifs at ht
      · exact ih (attempt + 1) t ht
      · have ht' : t ∈ ThemeClassifier.VALID_THEMES.filter (fun u =>
            strHas (strLower (responses attempt).content) (strLower u)) := ht
        exact List.mem_of_mem_filter ht'
    · exact ih (attempt + 1) t ht

lemma classifyFrom_calls_pos :
    ∀ (fuel attempt : Nat),
      1 ≤ (ThemeClassifier.classifyFrom responses attempt fuel).2 := by
  intro fuel
  induction fuel with
  | zero => intro attempt; simp [ThemeClassifier.classifyFrom]
  | succ n ih =>
    intro attempt
    unfold ThemeClassifier.classifyFrom
    split
    · split_ifs
      · exact ih (attempt + 1)
      · show 1 ≤ attempt + 1; omega
    · split_ifs
      · exact ih (attempt + 1)
      · show 1 ≤ attempt + 1; omega
    · exact ih (attempt + 1)

lemma classifyFrom_calls_le :
    ∀ (fuel attempt : Nat), attempt + fuel = 3 →
      (ThemeClassifier.classifyFrom responses attempt fuel).2 ≤ 3 := by
  intro fuel
  induction fuel with
  | zero => intro attempt _; simp [ThemeClassifier.classifyFrom]
  | succ n ih =>
    intro attempt hsum
    unfold ThemeClassifier.classifyFrom
    split
    · split_ifs
      · exact ih (attempt + 1) (by omega)
      · show attempt + 1 ≤ 3; omega
    · split_ifs
      · exact ih (attempt + 1) (by omega)
      · show attempt + 1 ≤ 3; omega
    · exact ih (attempt + 1) (by omega)

/-- Whether one classification attempt fails both the strict parse and the
decode-error substring heuristic. -/
def attemptFails (r : LLMResponse) : Bool :=
  match r.parsed with
  | .jlist themes =>
    (themes.filter (fun t => ThemeClassifier.VALID_THEMES.contains t)).isEmpty
  | .notJson =>
    (ThemeClassifier.VALID_THEMES.filter (fun t =>
      strHas (strLower r.content) (strLower t))).isEmpty
  | .nonList => true

lemma classifyFrom_all_fail :
    ∀ (fuel attempt : Nat),
      (∀ i, attempt ≤ i → i < attempt + fuel → attemptFails (responses i) = true) →
      ThemeClassifier.classifyFrom responses attempt fuel =
        (["Cross-border Transactions"], 3) := by
  intro fuel
  induction fuel with
  | zero => intro attempt _; rfl
  | succ n ih =>
    intro attempt hall
    have h0 : attemptFails (responses attempt) = true :=
      hall attempt (Nat.le_refl _) (by omega)
    unfold ThemeClassifier.classifyFrom
    unfold attemptFails at h0
    split
    · split_ifs with hemp
      · exact ih (attempt + 1) (fun i h1 h2 => hall i (by omega) (by omega))
      · rename_i themes hp
        rw [hp] at h0
        exact absurd h0 (by simpa using hemp)
    · split_ifs with hemp
      · exact ih (attempt + 1) (fun i h1 h2 => hall i (by omega) (by omega))
      · rename_i hp
        rw [hp] at h0
        exact absurd h0 (by simpa using hemp)
    · exact ih (attempt + 1) (fun i h1 h2 => hall i (by omega) (by omega))

end ClassifyLemmas

/-- A civil-law-classified session state with no step output yet. -/
def c3state : AnalysisState :=
  { session_id := "s3", case_citation := "cite", full_text := "case text",
    jurisdiction := some .CIVIL_LAW }

/-- C3: Jurisdiction gating — on a CivilLaw-classified state a
COMPREHENSIVE run never touches or invokes the obiter_dicta and
dissenting_opinions steps, and the underlying extraction tools, handed the
civil-law jurisdiction string, return the not-applicable sentinel without
any Completion Service call. -/
theorem C3_jurisdiction_gating (o : StepOracle) (s : AnalysisState)
    (h : s.jurisdiction = some .CIVIL_LAW) :
    (analyze_comprehensive o s).state.obiter_dicta = s.obiter_dicta ∧
    (analyze_comprehensive o s).state.dissenting_opinions = s.dissenting_opinions ∧
    "extract_obiter_dicta" ∉ (analyze_comprehensive o s).invoked ∧
    "extract_dissenting_opinions" ∉ (analyze_comprehensive o s).invoked ∧
    (∀ resp text col, CaseAnalyzer.extract_obiter_dicta resp text col
        "Civil-law jurisdiction" =
      ("N/A - Not applicable for civil law jurisdiction", 0)) ∧
    (∀ resp text col, CaseAnalyzer.extract_dissenting_opinions resp text col
        "Civil-law jurisdiction" =
      ("N/A - Not applicable for civil law jurisdiction", 0)) := by
  have hpipe : get_analysis_pipeline (s.jurisdiction.getD .CIVIL_LAW) =
      get_analysis_pipeline .CIVIL_LAW := by rw [h]; rfl
  have hobn : "extract_obiter_dicta" ∉ get_analysis_pipeline .CIVIL_LAW := by decide
  have hdin : "extract_dissenting_opinions" ∉ get_analysis_pipeline .CIVIL_LAW := by
    decide
  unfold analyze_comprehensive
  rw [hpipe]
  refine ⟨runPipeline_obiter_skip o _ hobn s, runPipeline_dissent_skip o _ hdin s,
    ?_, ?_, fun resp text col => rfl, fun resp text col => rfl⟩
  · intro hmem
    exact hobn (runPipeline_invoked o _ s _ hmem).1
  · intro hmem
    exact hdin (runPipeline_invoked o _ s _ hmem).1

/-- Witness for C3 on a concrete civil-law session. -/
theorem C3_witness :
    c3state.jurisdiction = some .CIVIL_LAW ∧
    ((analyze_comprehensive civilOkOracle c3state).state.obiter_dicta =
        c3state.obiter_dicta ∧
     (analyze_comprehensive civilOkOracle c3state).state.dissenting_opinions =
        c3state.dissenting_opinions ∧
     "extract_obiter_dicta" ∉ (analyze_comprehensive civilOkOracle c3state).invoked ∧
     "extract_dissenting_opinions" ∉
        (analyze_comprehensive civilOkOracle c3state).invoked ∧
     (∀ resp text col, CaseAnalyzer.extract_obiter_dicta resp text col
         "Civil-law jurisdiction" =
       ("N/A - Not applicable for civil law jurisdiction", 0)) ∧
     (∀ resp text col, CaseAnalyzer.extract_dissenting_opinions resp text col
         "Civil-law jurisdiction" =
       ("N/A - Not applicable for civil law jurisdiction", 0))) :=
  ⟨rfl, C3_jurisdiction_gating civilOkOracle c3state rfl⟩

/-- C4 counterexample: `ChoiceOfLawExtractor.extract` — one of the nine
extraction steps, the one the enhanced orchestrator dispatches for
extract_col_section — performs a Completion Service call even on input
shorter than 50 characters, instead of the claimed call-free canned
result. -/
theorem C4_counterexample :
    strLen (strTrim "too short") < 50 ∧
    (ChoiceOfLawExtractor.extract "model output" "too short"
      "Civil-law jurisdiction").2 = 1 ∧
    (ChoiceOfLawExtractor.extract "model output" "too short"
      "Civil-law jurisdiction").2 ≠ 0 :=
  ⟨by decide, rfl, by decide⟩

/-- C4 (amended): the sub-50-character fast path exists in the
jurisdiction detector and in the `tools/tools.py` tool variants (shown for
`extract_choice_of_law_section`), but the `legal_tools.py` extraction
steps used by the enhanced orchestrator perform no length check: the
choice-of-law extractor and the PIL-provision extractor always make
exactly one Completion Service call and the theme classifier at least
one, whatever the input text. -/
theorem C4_short_input_fast_path (resp name text jt : String)
    (responses : Nat → LLMResponse) (r : LLMResponse) :
    (strLen (strTrim text) < 50 →
      (JurisdictionDetector.detect resp name text).2 = 0 ∧
      (JurisdictionDetector.detect resp name text).1.method = "text_length") ∧
    (strLen (strTrim text) < 50 →
      ToolsPy.extract_choice_of_law_section resp text =
        (ToolsPy.colInsufficientMsg, 0)) ∧
    (ChoiceOfLawExtractor.extract resp text jt).2 = 1 ∧
    (CaseAnalyzer.identify_pil_provisions r text "" jt).2 = 1 ∧
    1 ≤ (ThemeClassifier.classify responses).2 := by
  refine ⟨fun h => ?_, fun h => ?_, rfl, ?_, ?_⟩
  · unfold JurisdictionDetector.detect
    rw [if_pos (Or.inr h)]
    exact ⟨rfl, rfl⟩
  · unfold ToolsPy.extract_choice_of_law_section
    rw [if_pos (Or.inr h)]
  · rcases r with ⟨c, p⟩
    cases p <;> rfl
  · exact classifyFrom_calls_pos responses 3 0

/-- Witness for C4 at a concrete nine-character input. -/
theorem C4_witness :
    strLen (strTrim "too short") < 50 ∧
    ((JurisdictionDetector.detect "resp" "Atlantis" "too short").2 = 0 ∧
     (JurisdictionDetector.detect "resp" "Atlantis" "too short").1.method =
       "text_length") :=
  ⟨by decide,
   (C4_short_input_fast_path "resp" "Atlantis" "too short"
     "Civil-law jurisdiction" (fun _ => ⟨"", .notJson⟩) ⟨"", .notJson⟩).1
     (by decide)⟩

/-- Responses on which every classification attempt fails, for the C6
witness. -/
def allFailResponses : Nat → LLMResponse := fun _ => ⟨"zzz", .notJson⟩

/-- C6: Vocabulary containment — every theme the theme-classification step
returns, whatever the Completion Service responses, is a member of the
fixed theme vocabulary (invalid parsed items are filtered out, the
substring heuristic only selects vocabulary members, and the final
fallback is itself a vocabulary member). -/
theorem C6_vocabulary_containment (responses : Nat → LLMResponse) :
    ∀ t ∈ (ThemeClassifier.classify responses).1,
      t ∈ ThemeClassifier.VALID_THEMES := by
  intro t ht
  exact classifyFrom_vocab responses 3 0 t ht

/-- Witness for C6 on responses that force the final fallback. -/
theorem C6_witness :
    "Cross-border Transactions" ∈ (ThemeClassifier.classify allFailResponses).1 ∧
    "Cross-border Transactions" ∈ ThemeClassifier.VALID_THEMES :=
  ⟨by decide,
   C6_vocabulary_containment allFailResponses "Cross-border Transactions" (by decide)⟩

/-- A fresh session state used in the C5 fixtures. -/
def c5state : AnalysisState := initState "s5" "cite" "case text"

/-- C5 counterexample: when the choice-of-law step raises `boom`, the
endpoint returns a 500 whose detail is `Analysis error: boom` — it carries
the underlying message but does NOT name the failing step
(`extract_col_section` does not occur in it) — while the step's output list
correctly stays empty. -/
theorem C5_counterexample :
    (analyze_case colFailOracle (some c5state) "s5" "cite" "t").2.2 =
      ApiResult.httpError 500 "Analysis error: boom" ∧
    strHas "Analysis error: boom" "extract_col_section" = false ∧
    (analyze_case colFailOracle (some c5state) "s5" "cite" "t").1.col_section = [] := by
  refine ⟨by decide, by decide, by decide⟩

/-- C5 (amended): if a pipeline step raises, the orchestrator leaves that
step's stored output exactly as it was (an empty list stays empty, so a
retry resumes cleanly), halts the run — the failing step is the last one
invoked — and returns a 500 error `Analysis error: <message>` carrying the
underlying message, though not the failing step's name. -/
theorem C5_failure_surfacing (o : StepOracle) (stored : Option AnalysisState)
    (sid cit txt : String) (k e : String)
    (hf : (analyze_comprehensive o (sessionState stored sid cit txt)).failure =
      some (k, e)) :
    stepOutput k (analyze_comprehensive o (sessionState stored sid cit txt)).state =
      stepOutput k (sessionState stored sid cit txt) ∧
    (analyze_comprehensive o (sessionState stored sid cit txt)).invoked.getLast? =
      some k ∧
    (analyze_case o stored sid cit txt).2.2 =
      ApiResult.httpError 500 ("Analysis error: " ++ e) := by
  have hspec := runPipeline_failure_spec o
    (get_analysis_pipeline
      ((sessionState stored sid cit txt).jurisdiction.getD .CIVIL_LAW))
    (sessionState stored sid cit txt) k e (pipeline_nodup _) hf
  refine ⟨hspec.2.1, hspec.2.2, ?_⟩
  rcases hrun : analyze_comprehensive o (sessionState stored sid cit txt) with
    ⟨s2, inv2, fl2⟩
  rw [hrun] at hf
  have hfl2 : fl2 = some (k, e) := hf
  subst hfl2
  simp only [analyze_case, hrun]

/-- Witness for C5 on the concrete failing oracle. -/
theorem C5_witness :
    (analyze_comprehensive colFailOracle
        (sessionState (some c5state) "s5" "cite" "t")).failure =
      some ("extract_col_section", "boom") ∧
    (stepOutput "extract_col_section"
        (analyze_comprehensive colFailOracle
          (sessionState (some c5state) "s5" "cite" "t")).state =
      stepOutput "extract_col_section" (sessionState (some c5state) "s5" "cite" "t") ∧
    (analyze_comprehensive colFailOracle
        (sessionState (some c5state) "s5" "cite" "t")).invoked.getLast? =
      some "extract_col_section" ∧
    (analyze_case colFailOracle (some c5state) "s5" "cite" "t").2.2 =
      ApiResult.httpError 500 ("Analysis error: " ++ "boom")) :=
  ⟨by decide,
   C5_failure_surfacing colFailOracle (some c5state) "s5" "cite" "t"
     "extract_col_section" "boom" (by decide)⟩

/-- A response that is not parseable JSON, for the C7 fixtures. -/
def badResp : LLMResponse := ⟨"this is not a JSON list", .notJson⟩

/-- C7 counterexample: `identify_pil_provisions` performs exactly one
Completion Service call and defaults to `["NA"]` immediately on a response
that fails strict list parsing — there is no retry up to 3 and no
substring heuristic for this step. -/
theorem C7_counterexample :
    CaseAnalyzer.identify_pil_provisions badResp "text" "col"
      "Civil-law jurisdiction" = (["NA"], 1) ∧
    (CaseAnalyzer.identify_pil_provisions badResp "text" "col"
      "Civil-law jurisdiction").2 ≠ 3 :=
  ⟨rfl, by decide⟩

/-- C7 (amended): parse failures are never surfaced as errors, but the two
structured-output steps differ: theme classification makes between 1 and 3
Completion Service calls, applies the substring heuristic within each
decode-error attempt (shown for the first attempt), and returns
["Cross-border Transactions"] after three failed attempts; PIL-provision
extraction makes exactly one call and falls back to ["NA"] directly when
the response fails strict list parsing. -/
theorem C7_parse_failure_policy (responses : Nat → LLMResponse)
    (r : LLMResponse) (text col jt : String) :
    (ThemeClassifier.classify responses).2 ≤ 3 ∧
    ((∀ i, i < 3 → attemptFails (responses i) = true) →
      ThemeClassifier.classify responses = (["Cross-border Transactions"], 3)) ∧
    ((responses 0).parsed = .notJson →
      ThemeClassifier.VALID_THEMES.filter (fun t =>
        strHas (strLower (responses 0).content) (strLower t)) ≠ [] →
      ThemeClassifier.classify responses =
        (ThemeClassifier.VALID_THEMES.filter (fun t =>
          strHas (strLower (responses 0).content) (strLower t)), 1)) ∧
    (CaseAnalyzer.identify_pil_provisions r text col jt).2 = 1 ∧
    ((r.parsed = .notJson ∨ r.parsed = .nonList) →
      (CaseAnalyzer.identify_pil_provisions r text col jt).1 = ["NA"]) := by
  refine ⟨classifyFrom_calls_le responses 3 0 rfl, fun hall => ?_, fun hp hne => ?_,
    ?_, fun hp => ?_⟩
  · exact classifyFrom_all_fail responses 3 0
      (fun i h1 h2 => hall i (by omega))
  · unfold ThemeClassifier.classify ThemeClassifier.classifyFrom
    rw [hp]
    rw [if_neg (by simpa using hne)]
  · rcases r with ⟨c, p⟩
    cases p <;> rfl
  · rcases hp with hp | hp <;>
      (unfold CaseAnalyzer.identify_pil_provisions; rw [hp])

/-- Witness for C7 on responses failing all three attempts. -/
theorem C7_witness :
    (∀ i, i < 3 → attemptFails (allFailResponses i) = true) ∧
    ThemeClassifier.classify allFailResponses =
      (["Cross-border Transactions"], 3) ∧
    (CaseAnalyzer.identify_pil_provisions badResp "t" "c" "j").2 = 1 :=
  ⟨by decide,
   (C7_parse_failure_policy allFailResponses badResp "t" "c" "j").2.1 (by decide),
   (C7_parse_failure_policy allFailResponses badResp "t" "c" "j").2.2.2.1⟩

section DetectorLemmas

lemma mapping_vals :
    ∀ p ∈ JurisdictionDetector.get_jurisdiction_mapping,
      p.2 = "Civil-law jurisdiction" ∨ p.2 = "Common-law jurisdiction" := by
  intro p hp
  unfold JurisdictionDetector.get_jurisdiction_mapping at hp
  rcases List.mem_append.mp hp with h | h <;>
    obtain ⟨x, hx, rfl⟩ := List.mem_map.mp h <;> simp

lemma map_find_vals (pred : String × String → Bool) (fam : String)
    (hm : (JurisdictionDetector.get_jurisdiction_mapping.find? pred).map (·.2) =
      some fam) :
    fam = "Civil-law jurisdiction" ∨ fam = "Common-law jurisdiction" := by
  obtain ⟨p, hp2, hpe⟩ := Option.map_eq_some'.mp hm
  have hp := List.mem_of_find?_eq_some hp2
  rcases mapping_vals p hp with hv | hv
  · exact Or.inl (hpe ▸ hv)
  · exact Or.inr (hpe ▸ hv)

lemma detect_by_name_vals (name fam : String)
    (h : JurisdictionDetector.detect_by_name name = some fam) :
    fam = "Civil-law jurisdiction" ∨ fam = "Common-law jurisdiction" := by
  unfold JurisdictionDetector.detect_by_name at h
  split_ifs at h
  rcases h1 : (JurisdictionDetector.get_jurisdiction_mapping.find?
      (fun p => p.1 == strLower name)).map (·.2) with _ | t
  · rw [h1] at h
    exact map_find_vals _ fam (by simpa using h)
  · rw [h1] at h
    have ht : t = fam := by simpa using h
    exact map_find_vals _ fam (ht ▸ h1)

lemma detect_by_llm_mem (resp : String) :
    JurisdictionDetector.detect_by_llm resp ∈
      JurisdictionDetector.allowed_labels := by
  unfold JurisdictionDetector.detect_by_llm
  cases hf : JurisdictionDetector.allowed_labels.find?
      (fun lab => strHas (strLower (strTrim resp)) (strLower lab)) with
  | some lab =>
    simp only [hf]
    exact List.mem_of_find?_eq_some hf
  | none =>
    simp only [hf]
    decide

end DetectorLemmas

/-- C8: the jurisdiction classifier follows exactly the three-stage
algorithm: (1) empty or sub-50-character stripped text returns
family = No court decision with confidence high and method text_length and
no Completion Service call; (2) otherwise a static-table hit on the
lowercased name (exact match first, then substring containment in both
directions, as embedded in detect_by_name) returns that family with method
name_mapping, confidence high and no call; (3) otherwise one Completion
Service call is made and its response is parsed by case-insensitive
substring search over the three allowed labels, `No court decision` when
none occurs — so the resulting family is always one of the three allowed
labels. -/
theorem C8_classifier_algorithm (resp name text : String) :
    ((text = "" ∨ strLen (strTrim text) < 50) →
      JurisdictionDetector.detect resp name text =
        ({ jurisdiction_type := "No court decision",
           precise_jurisdiction := if name = "" then "Unknown" else name,
           confidence := "high", method := "text_length" }, 0)) ∧
    (¬(text = "" ∨ strLen (strTrim text) < 50) →
      (∀ fam, JurisdictionDetector.detect_by_name name = some fam →
        JurisdictionDetector.detect resp name text =
          ({ jurisdiction_type := fam, precise_jurisdiction := name,
             confidence := "high", method := "name_mapping" }, 0)) ∧
      (JurisdictionDetector.detect_by_name name = none →
        JurisdictionDetector.detect resp name text =
          ({ jurisdiction_type := JurisdictionDetector.detect_by_llm resp,
             precise_jurisdiction := if name = "" then "Unknown" else name,
             confidence := "medium", method := "llm_analysis" }, 1))) ∧
    ((∀ lab ∈ JurisdictionDetector.allowed_labels,
        strHas (strLower (strTrim resp)) (strLower lab) = false) →
      JurisdictionDetector.detect_by_llm resp = "No court decision") ∧
    (JurisdictionDetector.detect resp name text).1.jurisdiction_type ∈
      JurisdictionDetector.allowed_labels := by
  refine ⟨fun h => ?_, fun h => ⟨fun fam hfam => ?_, fun hnone => ?_⟩,
    fun hall => ?_, ?_⟩
  · unfold JurisdictionDetector.detect
    rw [if_pos h]
  · unfold JurisdictionDetector.detect
    rw [if_neg h, hfam]
  · unfold JurisdictionDetector.detect
    rw [if_neg h, hnone]
  · unfold JurisdictionDetector.detect_by_llm
    rw [List.find?_eq_none.mpr (fun lab hlab => by simp [hall lab hlab])]
  · by_cases h : text = "" ∨ strLen (strTrim text) < 50
    · unfold JurisdictionDetector.detect
      rw [if_pos h]
      show "No court decision" ∈ JurisdictionDetector.allowed_labels
      decide
    · unfold JurisdictionDetector.detect
      rw [if_neg h]
      cases hn : JurisdictionDetector.detect_by_name name with
      | some fam =>
        rcases detect_by_name_vals name fam hn with hv | hv <;>
          simp [JurisdictionDetector.allowed_labels, hv]
      | none =>
        simpa using detect_by_llm_mem resp

/-- A court-decision text longer than the 50-character threshold. -/
def c8text : String :=
  "This decision addresses a cross-border contract dispute and the law applicable to it."

/-- Witness for C8: the Switzerland scenario — name-mapping hit, civil-law
family, no Completion Service call. -/
theorem C8_witness :
    JurisdictionDetector.detect "resp" "Switzerland" c8text =
      ({ jurisdiction_type := "Civil-law jurisdiction",
         precise_jurisdiction := "Switzerland", confidence := "high",
         method := "name_mapping" }, 0) :=
  ((C8_classifier_algorithm "resp" "Switzerland" c8text).2.1 (by decide)).1
    "Civil-law jurisdiction" (by decide)

/-- The civil-law pipeline after its leading detection step. -/
def civilTail : List String :=
  ["extract_col_section", "classify_themes", "analyze_relevant_facts",
   "identify_pil_provisions", "identify_col_issue", "analyze_courts_position",
   "generate_abstract"]

/-- The state right after a fresh session's detection step classifies the
case as common law. -/
def c10s1 (sid cit txt pj : String) : AnalysisState :=
  { initState sid cit txt with
    jurisdiction := some .COMMON_LAW, precise_jurisdiction := some pj }

/-- The first COMPREHENSIVE invocation on a fresh session. -/
def firstRun (o : StepOracle) (sid cit txt : String) : StepResult :=
  analyze_comprehensive o (initState sid cit txt)

/-- The second COMPREHENSIVE invocation, on the state the first one left. -/
def secondRun (o o2 : StepOracle) (sid cit txt : String) : StepResult :=
  analyze_comprehensive o2 (firstRun o sid cit txt).state

/-- One successful loop iteration prepended to a pipeline walk. -/
lemma runPipeline_cons_ok (o : StepOracle) (st : String) (rest : List String)
    (s s1 : AnalysisState) (inv : List String)
    (h : comprehensiveStep o s st = ⟨s1, inv, none⟩) :
    runPipeline o (st :: rest) s =
      ⟨(runPipeline o rest s1).state, inv ++ (runPipeline o rest s1).invoked,
       (runPipeline o rest s1).failure⟩ := by
  rcases hr : runPipeline o rest s1 with ⟨s2, inv2, fl2⟩
  simp only [runPipeline, h, hr]

/-- C10: the pipeline is chosen from the stored jurisdiction before the
detection step runs, defaulting to the civil-law pipeline — so a fresh
session whose text is classified CommonLaw during the first invocation
never executes the obiter_dicta or dissenting_opinions steps in that
invocation (both lists stay empty and neither tool is invoked), and a
second invocation on the now-classified state executes both. -/
theorem C10_pipeline_before_detection (o o2 : StepOracle)
    (sid cit txt pj : String)
    (hdet : o.detectOut = .ok ("Common-law jurisdiction", pj))
    (hfail2 : (secondRun o o2 sid cit txt).failure = none) :
    "extract_obiter_dicta" ∉ (firstRun o sid cit txt).invoked ∧
    "extract_dissenting_opinions" ∉ (firstRun o sid cit txt).invoked ∧
    (firstRun o sid cit txt).state.obiter_dicta = [] ∧
    (firstRun o sid cit txt).state.dissenting_opinions = [] ∧
    (firstRun o sid cit txt).state.jurisdiction = some .COMMON_LAW ∧
    "extract_obiter_dicta" ∈ (secondRun o o2 sid cit txt).invoked ∧
    (secondRun o o2 sid cit txt).state.obiter_dicta ≠ [] ∧
    "extract_dissenting_opinions" ∈ (secondRun o o2 sid cit txt).invoked ∧
    (secondRun o o2 sid cit txt).state.dissenting_opinions ≠ [] := by
  have hstep : comprehensiveStep o (initState sid cit txt) "detect_jurisdiction" =
      ⟨c10s1 sid cit txt pj, ["detect_jurisdiction"], none⟩ := by
    simp [comprehensiveStep, initState, c10s1, hdet, JurisdictionType.ofValue]
  have hana : firstRun o sid cit txt =
      ⟨(runPipeline o civilTail (c10s1 sid cit txt pj)).state,
       "detect_jurisdiction" ::
         (runPipeline o civilTail (c10s1 sid cit txt pj)).invoked,
       (runPipeline o civilTail (c10s1 sid cit txt pj)).failure⟩ := by
    unfold firstRun analyze_comprehensive
    rw [show get_analysis_pipeline
        ((initState sid cit txt).jurisdiction.getD .CIVIL_LAW) =
      "detect_jurisdiction" :: civilTail from rfl]
    rw [runPipeline_cons_ok o "detect_jurisdiction" civilTail _ _ _ hstep]
    simp
  have hobskip : (runPipeline o civilTail (c10s1 sid cit txt pj)).state.obiter_dicta =
      (c10s1 sid cit txt pj).obiter_dicta :=
    runPipeline_obiter_skip o civilTail (by decide) (c10s1 sid cit txt pj)
  have hdiskip :
      (runPipeline o civilTail (c10s1 sid cit txt pj)).state.dissenting_opinions =
      (c10s1 sid cit txt pj).dissenting_opinions :=
    runPipeline_dissent_skip o civilTail (by decide) (c10s1 sid cit txt pj)
  have hob2 : (firstRun o sid cit txt).state.obiter_dicta = [] := by
    rw [hana]
    exact hobskip
  have hdis2 : (firstRun o sid cit txt).state.dissenting_opinions = [] := by
    rw [hana]
    exact hdiskip
  have hjur2 : (firstRun o sid cit txt).state.jurisdiction = some .COMMON_LAW := by
    rw [hana]
    exact runPipeline_jur_some o civilTail .COMMON_LAW (c10s1 sid cit txt pj) rfl
  have hpipe2 : get_analysis_pipeline
      ((firstRun o sid cit txt).state.jurisdiction.getD .CIVIL_LAW) =
      get_analysis_pipeline .COMMON_LAW := by
    rw [hjur2]
    rfl
  have hsec : secondRun o o2 sid cit txt =
      runPipeline o2 (get_analysis_pipeline .COMMON_LAW)
        (firstRun o sid cit txt).state := by
    unfold secondRun analyze_comprehensive
    rw [hpipe2]
  have hfail2' : (runPipeline o2 (get_analysis_pipeline .COMMON_LAW)
      (firstRun o sid cit txt).state).failure = none := by
    rw [← hsec]
    exact hfail2
  have hobr := runPipeline_obiter_runs o2 (get_analysis_pipeline .COMMON_LAW)
    (firstRun o sid cit txt).state (by decide) hjur2 hob2 hfail2'
  have hdisr := runPipeline_dissent_runs o2 (get_analysis_pipeline .COMMON_LAW)
    (firstRun o sid cit txt).state (by decide) hjur2 hdis2 hfail2'
  refine ⟨?_, ?_, hob2, hdis2, hjur2, ?_, ?_, ?_, ?_⟩
  · rw [hana]
    intro hmem
    rcases List.mem_cons.mp hmem with hh | hh
    · exact absurd hh (by decide)
    · exact absurd (runPipeline_invoked o civilTail (c10s1 sid cit txt pj) _ hh).1
        (by decide)
  · rw [hana]
    intro hmem
    rcases List.mem_cons.mp hmem with hh | hh
    · exact absurd hh (by decide)
    · exact absurd (runPipeline_invoked o civilTail (c10s1 sid cit txt pj) _ hh).1
        (by decide)
  · rw [hsec]
    exact hobr.1
  · rw [hsec]
    exact hobr.2
  · rw [hsec]
    exact hdisr.1
  · rw [hsec]
    exact hdisr.2

/-- Witness for C10 on a concrete fresh common-law session. -/
theorem C10_witness :
    commonOkOracle.detectOut = .ok ("Common-law jurisdiction", "England") ∧
    (secondRun commonOkOracle commonOkOracle "s10" "cite" "txt").failure = none ∧
    ("extract_obiter_dicta" ∉
       (firstRun commonOkOracle "s10" "cite" "txt").invoked ∧
     "extract_dissenting_opinions" ∉
       (firstRun commonOkOracle "s10" "cite" "txt").invoked ∧
     (firstRun commonOkOracle "s10" "cite" "txt").state.obiter_dicta = [] ∧
     (firstRun commonOkOracle "s10" "cite" "txt").state.dissenting_opinions = [] ∧
     (firstRun commonOkOracle "s10" "cite" "txt").state.jurisdiction =
       some .COMMON_LAW ∧
     "extract_obiter_dicta" ∈
       (secondRun commonOkOracle commonOkOracle "s10" "cite" "txt").invoked ∧
     (secondRun commonOkOracle commonOkOracle "s10" "cite" "txt").state.obiter_dicta ≠ [] ∧
     "extract_dissenting_opinions" ∈
       (secondRun commonOkOracle commonOkOracle "s10" "cite" "txt").invoked ∧
     (secondRun commonOkOracle commonOkOracle "s10" "cite" "txt").state.dissenting_opinions ≠ []) :=
  ⟨rfl, by decide,
   C10_pipeline_before_detection commonOkOracle commonOkOracle "s10" "cite" "txt"
     "England" rfl (by decide)⟩
